import Mathlib

/-! Verification of the tool-calling orchestration core of the course-materials
RAG chatbot: a shallow embedding of `backend/search_tools.py` (CourseSearchTool,
CourseOutlineTool, ToolManager) and of `backend/ai_generator.py` (AIGenerator's
multi-round tool loop), with theorems settling the specified properties.
External collaborators (the vector store and the LLM completion endpoint) are
modelled as function-valued parameters carrying exactly the interfaces the
embedded code consumes, so every theorem quantifies over all of their
behaviours. -/

/-- Python truthiness of an optional string value (`if x:`): `None` and the
empty string are falsy. -/
def py_truthy_str : Option String → Bool
  | some s => s ≠ ""
  | none => false

/-- Python truthiness of an optional integer value (`if x:`): `None` and `0`
are falsy. -/
def py_truthy_int : Option Int → Bool
  | some n => n ≠ 0
  | none => false

/-- Python `sep.join(parts)`. -/
def py_join (sep : String) : List String → String
  | [] => ""
  | [a] => a
  | a :: b :: rest => a ++ sep ++ py_join sep (b :: rest)

/-- A citation record `{"text": ..., "link": ...}` as built by
`CourseSearchTool._format_results`; `link` is `None` when no lesson link
applies or none was found. -/
structure Source where
  text : String
  link : Option String
deriving DecidableEq

/-- One metadata dict of a search hit: `course_title` is read with
`meta.get("course_title", "unknown")`, `lesson_number` with
`meta.get("lesson_number")` (so it may be `None`). -/
structure Meta where
  course_title : Option String
  lesson_number : Option Int
deriving DecidableEq

/-- The result set returned by the external `VectorStore.search`
(`vector_store.SearchResults`): parallel `documents` / `metadata` lists plus an
optional error string. Modelled from the spec: `vector_store.py` is not among
the sources; the spec describes a SearchResultSet as carrying "an optional
error string and an empty-flag", so `is_empty` (the method the code calls) is
carried as a field of the record. -/
structure SearchResults where
  documents : List String
  metadata : List Meta
  error : Option String
  is_empty : Bool
deriving DecidableEq

/-- One lesson dict of the deserialized `lessons_json`: read with
`lesson.get("lesson_number", "?")` and `lesson.get("lesson_title", "Unknown")`,
so both fields may be missing. -/
structure Lesson where
  lesson_number : Option Int
  lesson_title : Option String
deriving DecidableEq

/-- One metadata record of `course_catalog.get(ids=[title])["metadatas"]`.
`lessons` stands for the stored `lessons_json` string after `json.loads`:
`Except.error e` is a deserialization failure raising an exception with
message `e`. -/
structure CourseMetadata where
  title : Option String
  course_link : Option String
  lessons : Except String (List Lesson)

/-- The external vector-store interface consumed by the tools (spec section 6):
`search`, `get_lesson_link`, `_resolve_course_name`, and the course-catalog
metadata lookup used by `CourseOutlineTool`. `catalog_get` returns
`Except.error e` when the lookup itself raises, `.ok none` when it returns a
falsy result, and `.ok (some metadatas)` otherwise. -/
structure VectorStore where
  search : String → Option String → Option Int → SearchResults
  get_lesson_link : String → Int → Option String
  resolve_course_name : String → Option String
  catalog_get : String → Except String (Option (List CourseMetadata))

/-- `CourseSearchTool`: the wrapped store plus the mutable `last_sources`
attribute (initialised to `[]` in `__init__`). -/
structure CourseSearchTool where
  store : VectorStore
  last_sources : List Source

/-- The sources list built inside `CourseSearchTool._format_results`: one
`Source` per `(document, metadata)` pair, `text` being the course title with an
optional " - Lesson n" suffix, `link` looked up through
`store.get_lesson_link` whenever `lesson_number is not None`. -/
def sources_of (store : VectorStore) (results : SearchResults) : List Source :=
  (results.documents.zip results.metadata).map (fun p =>
    let course_title := p.2.course_title.getD "unknown"
    match p.2.lesson_number with
    | some n =>
      { text := course_title ++ " - Lesson " ++ toString n,
        link := store.get_lesson_link course_title n }
    | none => { text := course_title, link := none })

/-- The formatted blocks built inside `CourseSearchTool._format_results`: a
bracketed context header `[course - Lesson n]` over each document text. -/
def formatted_of (results : SearchResults) : List String :=
  (results.documents.zip results.metadata).map (fun p =>
    let course_title := p.2.course_title.getD "unknown"
    let header := "[" ++ course_title ++
      (match p.2.lesson_number with
       | some n => " - Lesson " ++ toString n
       | none => "") ++ "]"
    header ++ "\n" ++ p.1)

/-- `CourseSearchTool._format_results`. Python's
`zip(documents, metadata, strict=True)` raises when the two lists have unequal
lengths; `Except.error` stands for that raised exception (in which case
`self.last_sources` was not yet reassigned). On success the sources built from
this result set replace `last_sources` and the blocks are joined with blank
lines. -/
def CourseSearchTool.format_results (t : CourseSearchTool) (results : SearchResults) :
    Except String (String × CourseSearchTool) :=
  if results.documents.length = results.metadata.length then
    .ok (py_join "\n\n" (formatted_of results),
      { t with last_sources := sources_of t.store results })
  else
    .error "zip() arguments have unequal lengths"

/-- `CourseSearchTool.execute`: delegates to `store.search`, returns a truthy
error string verbatim, returns the fixed no-content message (with filter
suffixes) on an empty result set, and otherwise formats the results.
`Except.error` stands for a raised exception escaping `execute`. -/
def CourseSearchTool.execute (t : CourseSearchTool) (query : String)
    (course_name : Option String) (lesson_number : Option Int) :
    Except String (String × CourseSearchTool) :=
  let results := t.store.search query course_name lesson_number
  if py_truthy_str results.error then
    .ok (results.error.getD "", t)
  else if results.is_empty then
    let filter_info :=
      (if py_truthy_str course_name then
        " in course '" ++ course_name.getD "" ++ "'"
      else "") ++
      (if py_truthy_int lesson_number then
        " in lesson " ++ toString (lesson_number.getD 0)
      else "")
    .ok ("No relevant content found" ++ filter_info ++ ".", t)
  else
    t.format_results results

/-- `CourseOutlineTool._format_outline`: the course line, an optional link
line, then a `"\nLessons (n total):"` element (whose leading newline yields the
blank separator line when joined) and one indented line per lesson, joined with
newlines. -/
def format_outline (title : String) (course_link : Option String)
    (lessons : List Lesson) : String :=
  let head_lines := ["Course: " ++ title] ++
    (if py_truthy_str course_link then ["Course Link: " ++ course_link.getD ""] else [])
  let lesson_lines := lessons.map (fun l =>
    "  Lesson " ++
      (match l.lesson_number with
       | some n => toString n
       | none => "?") ++
    ": " ++ l.lesson_title.getD "Unknown")
  py_join "\n"
    (head_lines ++ ("\nLessons (" ++ toString lessons.length ++ " total):") :: lesson_lines)

/-- `CourseOutlineTool.execute`: resolve the (possibly partial) course name,
then fetch and format the catalog metadata; every failure is reported as text,
never raised. -/
def CourseOutlineTool.execute (store : VectorStore) (course_name : String) : String :=
  let resolved := store.resolve_course_name course_name
  if py_truthy_str resolved then
    let course_title := resolved.getD ""
    match store.catalog_get course_title with
    | .error e => "Error retrieving course outline: " ++ e
    | .ok r =>
      match (match r with
             | none => []
             | some ms => ms : List CourseMetadata) with
      | [] => "Course metadata not found for '" ++ course_title ++ "'"
      | m :: _ =>
        match m.lessons with
        | .error e => "Error retrieving course outline: " ++ e
        | .ok lessons =>
          format_outline (m.title.getD "Unknown") m.course_link lessons
  else
    "No course found matching '" ++ course_name ++ "'"

/-- An Anthropic tool-definition dict, restricted to the fields the core
reads: its (unique) `name` and its `description`; the parameter schema is
opaque to every operation modelled here. -/
structure ToolDefinition where
  name : String
  description : String
deriving DecidableEq

/-- A registered tool behind the `Tool` ABC: its definition and its `execute`
action on keyword arguments. `Except.error e` stands for `execute` raising an
exception whose `str` is `e`. -/
structure Tool where
  get_tool_definition : ToolDefinition
  execute : List (String × String) → Except String String

/-- `ToolManager`: `self.tools` is a Python dict from tool name to tool,
modelled as its insertion-ordered association list. -/
structure ToolManager where
  tools : List (String × Tool)

/-- Python dict update `d[k] = v`: replaces the value in place when the key
exists (keeping its original insertion position), else appends. -/
def dict_set (l : List (String × Tool)) (k : String) (v : Tool) : List (String × Tool) :=
  if l.any (fun p => p.1 = k) then
    l.map (fun p => if p.1 = k then (k, v) else p)
  else l ++ [(k, v)]

/-- `ToolManager.register_tool`: reads the name from the tool's own
definition; a missing/empty name raises `ValueError` (modelled as
`Except.error`). -/
def ToolManager.register_tool (tm : ToolManager) (t : Tool) : Except String ToolManager :=
  let tool_name := t.get_tool_definition.name
  if tool_name = "" then
    .error "Tool must have a 'name' in its definition"
  else
    .ok ⟨dict_set tm.tools tool_name t⟩

/-- `ToolManager.get_tool_definitions`: each registered tool's own definition,
in dict (= insertion) order. -/
def ToolManager.get_tool_definitions (tm : ToolManager) : List ToolDefinition :=
  tm.tools.map (fun p => p.2.get_tool_definition)

/-- Python dict lookup `self.tools[name]` guarded by `name in self.tools`. -/
def lookup_tool (l : List (String × Tool)) (name : String) : Option Tool :=
  match l.find? (fun p => p.1 = name) with
  | some p => some p.2
  | none => none

/-- `ToolManager.execute_tool`: an unregistered name yields the
"Tool '<name>' not found" string (never raises); otherwise the tool's own
`execute` runs (and may raise). -/
def ToolManager.execute_tool (tm : ToolManager) (tool_name : String)
    (kwargs : List (String × String)) : Except String String :=
  match lookup_tool tm.tools tool_name with
  | none => .ok ("Tool '" ++ tool_name ++ "' not found")
  | some t => t.execute kwargs

/-- `registerAll ts` registers the tools of `ts` in order into a fresh
manager, as the startup wiring does. -/
def registerAll (ts : List Tool) : Except String ToolManager :=
  ts.foldlM ToolManager.register_tool ⟨[]⟩

/-- A content block of an LLM response (spec section 6): `text` blocks carry a
`.text` attribute (the `hasattr(block, "text")` test of the extractor holds
exactly for them), `tool_use` blocks carry `name`, `id` and `input`. -/
inductive ContentBlock
  | text (value : String)
  | tool_use (name : String) (id : String) (input : List (String × String))
deriving DecidableEq

/-- An LLM completion response: its content blocks and its stop reason. -/
structure Response where
  content : List ContentBlock
  stop_reason : String
deriving DecidableEq

/-- One `tool_result` dict appended by `AIGenerator._execute_all_tools`. -/
structure ToolResultBlock where
  tool_use_id : String
  content : String
deriving DecidableEq

/-- The content of a conversation message: the raw query text, a response's
content blocks, or a bundle of tool results. -/
inductive MessageContent
  | text (s : String)
  | blocks (bs : List ContentBlock)
  | tool_results (rs : List ToolResultBlock)
deriving DecidableEq

/-- One entry of the orchestrator's `messages` array. -/
structure Message where
  role : String
  content : MessageContent
deriving DecidableEq

/-- `AIGenerator.MAX_TOOL_ROUNDS`. -/
def MAX_TOOL_ROUNDS : Nat := 2

/-- `AIGenerator.SYSTEM_PROMPT` (the static instruction block). -/
def SYSTEM_PROMPT : String := " You are an AI assistant specialized in course materials and educational content with access to comprehensive tools for course information.

Tool Usage Guidelines:
- **search_course_content**: Use for questions about specific course content or detailed educational materials
- **get_course_outline**: Use for questions about course structure, lesson list, or course overview
- **Multi-round tool usage**: You may use up to 2 tool calls per query to:
  * First discover course information (get_course_outline), then search content (search_course_content)
  * Search multiple courses to compare information
  * Refine searches with additional context
- **Strategic tool usage**: Only use additional tool calls when they add significant value
- Synthesize all tool results into coherent, accurate responses
- If tool yields no results, state this clearly without offering alternatives

Response Protocol:
- **General knowledge questions**: Answer using existing knowledge without using tools
- **Course content questions**: Use search_course_content tool first, then answer
- **Course outline/structure questions**: Use get_course_outline tool to provide the course title, course link, and complete lesson list with lesson numbers and titles
- **Complex queries**: Consider using get_course_outline first to verify course details, then search_course_content for specific content
- **No meta-commentary**:
 - Provide direct answers only — no reasoning process, tool usage explanations, or question-type analysis
 - Do not mention \"based on the search results\" or \"using the tool\" or \"in the first/second search\"


All responses must be:
1. **Brief, Concise and focused** - Get to the point quickly
2. **Educational** - Maintain instructional value
3. **Clear** - Use accessible language
4. **Example-supported** - Include relevant examples when they aid understanding
Provide only the direct answer to what was asked.
"

/-- `AIGenerator._build_system_prompt`: append the pre-formatted history, when
truthy, to the static prompt. -/
def build_system_prompt (conversation_history : Option String) : String :=
  if py_truthy_str conversation_history then
    SYSTEM_PROMPT ++ "\n\nPrevious conversation:\n" ++ conversation_history.getD ""
  else
    SYSTEM_PROMPT

/-- The observable shape of one completion call made through
`AIGenerator._make_api_call`: the messages passed, the system content, and
whether tool schemas (plus `tool_choice: auto`) were set — Python's
`if tools:` makes that so exactly for a non-None, non-empty list. -/
structure ApiCall where
  messages : List Message
  system : String
  withTools : Bool
deriving DecidableEq

/-- `AIGenerator._make_api_call`'s request record. -/
def make_api_call (messages : List Message) (system_content : String)
    (tools : Option (List ToolDefinition)) : ApiCall :=
  ⟨messages, system_content,
    match tools with
    | some ts => ts ≠ []
    | none => false⟩

/-- What a `generate_response` invocation yields in the embedding: the
returned text, the trace of completion calls made (in order), and the final
`messages` array. -/
structure GenResult where
  text : String
  calls : List ApiCall
  messages : List Message

/-- `AIGenerator._extract_text_response`: empty content gives the first fixed
fallback; otherwise the `.text` of every text block is collected and joined
with single spaces, an empty collection giving the second fixed fallback. -/
def text_parts (response : Response) : List String :=
  response.content.filterMap (fun b =>
    match b with
    | .text v => some v
    | _ => none)

/-- `AIGenerator._extract_text_response`. -/
def extract_text_response (response : Response) : String :=
  if response.content = [] then
    "I apologize, but I encountered an issue processing your request."
  else if text_parts response = [] then
    "No response generated."
  else
    py_join " " (text_parts response)

/-- `AIGenerator._format_tool_error`. -/
def format_tool_error (error : String) : String :=
  "I encountered an error while searching the course materials: " ++ error

/-- The structured result of `AIGenerator._execute_all_tools`. -/
structure ToolResultsOut where
  results : List ToolResultBlock
  error : Option String

/-- The loop body of `AIGenerator._execute_all_tools` over the response's
content blocks: every `tool_use` block runs in order through the manager; the
first raising tool aborts with empty results and the formatted message
`"Tool <name> failed: <e>"`. -/
def run_tool_blocks (tm : ToolManager) : List ContentBlock → ToolResultsOut
  | [] => ⟨[], none⟩
  | .text _ :: rest => run_tool_blocks tm rest
  | .tool_use name id input :: rest =>
    match tm.execute_tool name input with
    | .error e => ⟨[], some ("Tool " ++ name ++ " failed: " ++ e)⟩
    | .ok out =>
      match run_tool_blocks tm rest with
      | ⟨_, some e⟩ => ⟨[], some e⟩
      | ⟨rs, none⟩ => ⟨⟨id, out⟩ :: rs, none⟩

/-- `AIGenerator._execute_all_tools`. -/
def execute_all_tools (tm : ToolManager) (response : Response) : ToolResultsOut :=
  run_tool_blocks tm response.content

/-- `AIGenerator._execute_tool_loop`, with the LLM modelled as an oracle `llm`
giving the response of the `c`-th completion call of this invocation (any
concrete execution's response sequence instantiates it, so theorems over all
oracles cover every run). The first argument of the recursion is the number of
loop iterations still permitted (`max_rounds - (round_num - 1)`); at `0` the
`for` loop is over and the mandatory final no-tools synthesis call is made. -/
def execute_tool_loop (llm : Nat → Response) (tm : ToolManager)
    (system_content : String) (tools : List ToolDefinition) :
    Nat → List Message → Nat → GenResult
  | 0, messages, c =>
    let final_response := llm c
    ⟨extract_text_response final_response,
      [make_api_call messages system_content none], messages⟩
  | r + 1, messages, c =>
    let response := llm c
    if response.stop_reason ≠ "tool_use" then
      ⟨extract_text_response response,
        [make_api_call messages system_content (some tools)], messages⟩
    else
      let messages1 := messages ++ [⟨"assistant", .blocks response.content⟩]
      let tool_results := execute_all_tools tm response
      match tool_results.error with
      | some e =>
        ⟨format_tool_error e,
          [make_api_call messages system_content (some tools)], messages1⟩
      | none =>
        let messages2 := messages1 ++ [⟨"user", .tool_results tool_results.results⟩]
        let rest := execute_tool_loop llm tm system_content tools r messages2 (c + 1)
        ⟨rest.text, make_api_call messages system_content (some tools) :: rest.calls,
          rest.messages⟩

/-- `AIGenerator.generate_response`: seeds the message array with the user
query, takes the no-tools fast path unless both a truthy (non-empty) tool list
and a manager are supplied, and otherwise runs the tool loop with
`max_tool_rounds` (defaulting to `MAX_TOOL_ROUNDS`). -/
def generate_response (llm : Nat → Response) (query : String)
    (conversation_history : Option String) (tools : Option (List ToolDefinition))
    (tool_manager : Option ToolManager) (max_tool_rounds : Option Nat) : GenResult :=
  let max_rounds := max_tool_rounds.getD MAX_TOOL_ROUNDS
  let system_content := build_system_prompt conversation_history
  let messages : List Message := [⟨"user", .text query⟩]
  match tools, tool_manager with
  | some ts, some tm =>
    if ts = [] then
      ⟨extract_text_response (llm 0), [make_api_call messages system_content none], messages⟩
    else
      execute_tool_loop llm tm system_content ts max_rounds messages 0
  | _, _ =>
    ⟨extract_text_response (llm 0), [make_api_call messages system_content none], messages⟩

/-- The role sequence of a message array. -/
def roles (msgs : List Message) : List String :=
  msgs.map Message.role

/-- A store whose search always reports an empty result set (no error). -/
def empty_search_store : VectorStore where
  search := fun _ _ _ => ⟨[], [], none, true⟩
  get_lesson_link := fun _ _ => none
  resolve_course_name := fun _ => none
  catalog_get := fun _ => .ok none

/-- A search tool over `empty_search_store` with no prior sources. -/
def cs_empty : CourseSearchTool := ⟨empty_search_store, []⟩

/-- A store whose search always reports a backend error. -/
def err_search_store : VectorStore where
  search := fun _ _ _ => ⟨[], [], some "Search backend failure", true⟩
  get_lesson_link := fun _ _ => none
  resolve_course_name := fun _ => none
  catalog_get := fun _ => .ok none

/-- A search tool over `err_search_store` still holding the citations of an
earlier successful execution. -/
def cs_stale : CourseSearchTool :=
  ⟨err_search_store, [⟨"Old Course - Lesson 1", none⟩]⟩

/-- A store whose search always returns one hit in lesson 1 of a course. -/
def one_hit_store : VectorStore where
  search := fun _ _ _ =>
    ⟨["chunk text"], [⟨some "Testing Fundamentals", some 1⟩], none, false⟩
  get_lesson_link := fun _ _ => some "https://example.com/lesson-1"
  resolve_course_name := fun _ => none
  catalog_get := fun _ => .ok none

/-- A search tool over `one_hit_store` holding a stale citation. -/
def cs_one : CourseSearchTool := ⟨one_hit_store, [⟨"stale", none⟩]⟩

/-- A store resolving every course name to "Testing Fundamentals" with a
three-lesson outline on file. -/
def outline_store : VectorStore where
  search := fun _ _ _ => ⟨[], [], none, true⟩
  get_lesson_link := fun _ _ => none
  resolve_course_name := fun _ => some "Testing Fundamentals"
  catalog_get := fun _ =>
    .ok (some [⟨some "Testing Fundamentals", some "https://example.com/course",
      .ok [⟨some 0, some "Introduction to Testing"⟩,
           ⟨some 1, some "Advanced Testing Strategies"⟩,
           ⟨some 2, some "Test Automation"⟩]⟩])

/-- A registrable tool named "alpha_tool". -/
def tool_alpha : Tool := ⟨⟨"alpha_tool", "first tool"⟩, fun _ => .ok "alpha result"⟩

/-- A registrable tool named "beta_tool". -/
def tool_beta : Tool := ⟨⟨"beta_tool", "second tool"⟩, fun _ => .ok "beta result"⟩

/-- A tool whose execution raises. -/
def boom_tool : Tool := ⟨⟨"boom_tool", "always raises"⟩, fun _ => .error "boom"⟩

/-- A manager holding only `boom_tool`. -/
def boom_tm : ToolManager := ⟨[("boom_tool", boom_tool)]⟩

/-- An LLM oracle that always requests `boom_tool`. -/
def boom_llm : Nat → Response :=
  fun _ => ⟨[.tool_use "boom_tool" "id1" []], "tool_use"⟩

/-- An LLM oracle that always answers with plain text. -/
def plain_llm : Nat → Response := fun _ => ⟨[.text "hello"], "end_turn"⟩

/-- A concrete one-entry schema list. -/
def ts_one : List ToolDefinition :=
  [⟨"search_course_content", "Search course materials"⟩]

theorem py_join_cons (sep a : String) (l : List String) (h : l ≠ []) :
    py_join sep (a :: l) = a ++ sep ++ py_join sep l := by
  cases l with
  | nil => exact absurd rfl h
  | cons b r => rfl

theorem find?_eq_none_of_not_mem_keys (l : List (String × Tool)) (name : String)
    (h : name ∉ l.map Prod.fst) :
    l.find? (fun p => p.1 = name) = none := by
  rw [List.find?_eq_none]
  intro p hp
  simp only [decide_eq_true_eq]
  intro hq
  exact h (hq ▸ List.mem_map_of_mem Prod.fst hp)

/-- C5: dispatching an unregistered tool name through `ToolManager.execute_tool`
returns the "Tool '<name>' not found" string — it never raises, whatever the
arguments supplied. -/
theorem dispatch_unknown_tool_not_found (tm : ToolManager) (name : String)
    (kwargs : List (String × String)) (h : name ∉ tm.tools.map Prod.fst) :
    tm.execute_tool name kwargs = .ok ("Tool '" ++ name ++ "' not found") := by
  unfold ToolManager.execute_tool lookup_tool
  rw [find?_eq_none_of_not_mem_keys tm.tools name h]

theorem dispatch_unknown_tool_not_found_witness :
    ToolManager.execute_tool ⟨[]⟩ "nonexistent_tool" [("query", "test")] =
      .ok "Tool 'nonexistent_tool' not found" :=
  dispatch_unknown_tool_not_found ⟨[]⟩ "nonexistent_tool" [("query", "test")]
    (by simp)

/-- C6: text extraction concatenates the text of every text-typed content
block with single-space separators; a response with no content blocks at all
gives one fixed fallback string, and one with blocks but no text-typed block
gives a second, different fixed fallback; the function is total, so it never
raises. -/
theorem extract_text_response_cases (response : Response) :
    (response.content = [] →
      extract_text_response response =
        "I apologize, but I encountered an issue processing your request.") ∧
    (response.content ≠ [] → text_parts response = [] →
      extract_text_response response = "No response generated.") ∧
    (text_parts response ≠ [] →
      extract_text_response response = py_join " " (text_parts response)) ∧
    ("I apologize, but I encountered an issue processing your request." ≠
      "No response generated.") := by
  refine ⟨?_, ?_, ?_, by decide⟩
  · intro h
    simp [extract_text_response, h]
  · intro h h2
    simp [extract_text_response, h, h2]
  · intro h
    have hc : response.content ≠ [] := by
      intro hc
      apply h
      simp [text_parts, hc]
    simp [extract_text_response, hc, h]

theorem extract_text_response_cases_witness :
    extract_text_response ⟨[.tool_use "t" "i" [], .text "a", .text "b"], "end_turn"⟩ =
      py_join " " ["a", "b"] :=
  (extract_text_response_cases ⟨[.tool_use "t" "i" [], .text "a", .text "b"], "end_turn"⟩).2.2.1
    (by decide)

/-- C4 counterexample: with an empty result set, `course_name = "Testing"` and
`lesson_number = 0` supplied, the code returns
"No relevant content found in course 'Testing'." — a trailing period the claim
omits, and no " in lesson 0" suffix because Python's `if lesson_number:` is
false at 0 — so the string the claim prescribes differs from the one
returned. -/
theorem no_content_message_counterexample :
    CourseSearchTool.execute cs_empty "q" (some "Testing") (some 0) =
      .ok ("No relevant content found in course 'Testing'.", cs_empty) ∧
    "No relevant content found in course 'Testing'." ≠
      "No relevant content found in course 'Testing' in lesson 0" := by
  exact ⟨rfl, by decide⟩

/-- C4 amended: on a non-error, empty result set the returned string is
exactly "No relevant content found", plus " in course '<X>'" when a truthy
(non-empty) course_name was given, plus " in lesson <N>" when a truthy
(non-zero) lesson_number was given, followed by a trailing period; the tool's
state is unchanged. -/
theorem no_content_message_exact (t : CourseSearchTool) (query : String)
    (course_name : Option String) (lesson_number : Option Int)
    (herr : py_truthy_str (t.store.search query course_name lesson_number).error = false)
    (hemp : (t.store.search query course_name lesson_number).is_empty = true) :
    t.execute query course_name lesson_number =
      .ok ("No relevant content found" ++
        ((if py_truthy_str course_name then
            " in course '" ++ course_name.getD "" ++ "'"
          else "") ++
         (if py_truthy_int lesson_number then
            " in lesson " ++ toString (lesson_number.getD 0)
          else "")) ++ ".", t) := by
  unfold CourseSearchTool.execute
  simp only [herr, hemp, Bool.false_eq_true, if_false, if_true]

theorem no_content_message_exact_witness :
    CourseSearchTool.execute cs_empty "q" (some "Testing") (some 2) =
      .ok ("No relevant content found in course 'Testing' in lesson 2.", cs_empty) :=
  no_content_message_exact cs_empty "q" (some "Testing") (some 2) rfl rfl

/-- C3 counterexample: an execution whose search reports an error returns that
error text and leaves the previous, non-empty citation list in place — the
stored sources after the call are not the (empty) set derived from this
call's results. -/
theorem stale_sources_counterexample :
    CourseSearchTool.execute cs_stale "q" none none =
      .ok ("Search backend failure", cs_stale) ∧
    cs_stale.last_sources = [⟨"Old Course - Lesson 1", none⟩] ∧
    cs_stale.last_sources ≠ [] := by
  exact ⟨rfl, rfl, by decide⟩

/-- C3 amended: only a successful execution that formats a non-empty result
set overwrites `last_sources`, and then the stored list is exactly the sources
derived from that call's results (overwritten, never appended); on an error
outcome or an empty result set the previous citation list is left in place,
and on mismatched result lists the call raises without touching it. -/
theorem execute_sources_update_cases (t : CourseSearchTool) (query : String)
    (course_name : Option String) (lesson_number : Option Int) :
    (py_truthy_str (t.store.search query course_name lesson_number).error = false →
      (t.store.search query course_name lesson_number).is_empty = false →
      (t.store.search query course_name lesson_number).documents.length =
        (t.store.search query course_name lesson_number).metadata.length →
      t.execute query course_name lesson_number =
        .ok (py_join "\n\n" (formatted_of (t.store.search query course_name lesson_number)),
          { t with last_sources :=
              sources_of t.store (t.store.search query course_name lesson_number) })) ∧
    (py_truthy_str (t.store.search query course_name lesson_number).error = true →
      t.execute query course_name lesson_number =
        .ok ((t.store.search query course_name lesson_number).error.getD "", t)) ∧
    (py_truthy_str (t.store.search query course_name lesson_number).error = false →
      (t.store.search query course_name lesson_number).is_empty = true →
      ∃ msg, t.execute query course_name lesson_number = .ok (msg, t)) ∧
    (py_truthy_str (t.store.search query course_name lesson_number).error = false →
      (t.store.search query course_name lesson_number).is_empty = false →
      (t.store.search query course_name lesson_number).documents.length ≠
        (t.store.search query course_name lesson_number).metadata.length →
      t.execute query course_name lesson_number =
        .error "zip() arguments have unequal lengths") := by
  refine ⟨?_, ?_, ?_, ?_⟩
  · intro herr hemp hlen
    simp [CourseSearchTool.execute, CourseSearchTool.format_results, herr, hemp, hlen]
  · intro herr
    simp [CourseSearchTool.execute, herr]
  · intro herr hemp
    refine ⟨"No relevant content found" ++
      ((if py_truthy_str course_name then
          " in course '" ++ course_name.getD "" ++ "'"
        else "") ++
       (if py_truthy_int lesson_number then
          " in lesson " ++ toString (lesson_number.getD 0)
        else "")) ++ ".", ?_⟩
    simp [CourseSearchTool.execute, herr, hemp]
  · intro herr hemp hlen
    simp [CourseSearchTool.execute, CourseSearchTool.format_results, herr, hemp, hlen]

theorem execute_sources_update_cases_witness :
    CourseSearchTool.execute cs_one "testing basics" none none =
      .ok (py_join "\n\n" (formatted_of (one_hit_store.search "testing basics" none none)),
        { cs_one with last_sources := sources_of one_hit_store (one_hit_store.search "testing basics" none none) }) :=
  (execute_sources_update_cases cs_one "testing basics" none none).1 rfl rfl rfl

theorem py_join_newline_block (s : String) (B : List String) :
    ∀ A : List String,
      py_join "\n" (A ++ ("\n" ++ s) :: B) = py_join "\n" (A ++ "" :: s :: B) := by
  intro A
  induction A with
  | nil =>
    cases B with
    | nil => rfl
    | cons b r =>
      show ("\n" ++ s) ++ "\n" ++ py_join "\n" (b :: r) =
        "" ++ "\n" ++ (s ++ "\n" ++ py_join "\n" (b :: r))
      simp [String.append_assoc]
  | cons a A ih =>
    rw [List.cons_append, List.cons_append,
      py_join_cons "\n" a _ (by simp), py_join_cons "\n" a _ (by simp), ih]

/-- C7: `CourseOutlineTool.execute` returns exactly
"No course found matching '<course_name>'" when course-name resolution fails,
and on successfully fetched and parsed metadata it returns the
"Course: <title>" line, an optional "Course Link: <link>" line, a blank line,
the "Lessons (<C> total):" line, and one "  Lesson <n>: <title>" line per
lesson in the stored order, joined with newlines. -/
theorem course_outline_execute_cases (store : VectorStore) (course_name : String) :
    (py_truthy_str (store.resolve_course_name course_name) = false →
      CourseOutlineTool.execute store course_name =
        "No course found matching '" ++ course_name ++ "'") ∧
    (∀ ct m ms lessons,
      store.resolve_course_name course_name = some ct → ct ≠ "" →
      store.catalog_get ct = .ok (some (m :: ms)) →
      m.lessons = .ok lessons →
      CourseOutlineTool.execute store course_name =
        py_join "\n"
          (["Course: " ++ m.title.getD "Unknown"] ++
           (if py_truthy_str m.course_link then
              ["Course Link: " ++ m.course_link.getD ""]
            else []) ++
           [""] ++
           ["Lessons (" ++ toString lessons.length ++ " total):"] ++
           lessons.map (fun l =>
             "  Lesson " ++
               (match l.lesson_number with
                | some n => toString n
                | none => "?") ++
             ": " ++ l.lesson_title.getD "Unknown"))) := by
  constructor
  · intro h
    simp [CourseOutlineTool.execute, h]
  · intro ct m ms lessons hres hct hcat hles
    have htr : py_truthy_str (some ct) = true := by
      simp [py_truthy_str, hct]
    have hsplit : ("\nLessons (" ++ toString lessons.length ++ " total):") =
        "\n" ++ ("Lessons (" ++ toString lessons.length ++ " total):") := by
      rw [show ("\nLessons (" : String) = "\n" ++ "Lessons (" from rfl]
      simp only [String.append_assoc]
    unfold CourseOutlineTool.execute
    rw [hres]
    simp only [htr, if_true, Option.getD_some]
    rw [hcat]
    simp only [hles]
    unfold format_outline
    rw [hsplit, py_join_newline_block]
    simp

theorem course_outline_execute_cases_witness :
    CourseOutlineTool.execute outline_store "Testing" =
      py_join "\n" ["Course: Testing Fundamentals",
        "Course Link: https://example.com/course", "", "Lessons (3 total):",
        "  Lesson 0: Introduction to Testing",
        "  Lesson 1: Advanced Testing Strategies",
        "  Lesson 2: Test Automation"] :=
  (course_outline_execute_cases outline_store "Testing").2 "Testing Fundamentals"
    ⟨some "Testing Fundamentals", some "https://example.com/course",
      .ok [⟨some 0, some "Introduction to Testing"⟩,
           ⟨some 1, some "Advanced Testing Strategies"⟩,
           ⟨some 2, some "Test Automation"⟩]⟩ []
    [⟨some 0, some "Introduction to Testing"⟩,
     ⟨some 1, some "Advanced Testing Strategies"⟩,
     ⟨some 2, some "Test Automation"⟩]
    rfl (by decide) rfl rfl

theorem dict_set_fresh (l : List (String × Tool)) (k : String) (v : Tool)
    (h : k ∉ l.map Prod.fst) : dict_set l k v = l ++ [(k, v)] := by
  unfold dict_set
  have h' : ¬ (l.any (fun p => p.1 = k) = true) := by
    simp only [List.any_eq_true, decide_eq_true_eq]
    rintro ⟨p, hp, hpk⟩
    exact h (hpk ▸ List.mem_map_of_mem Prod.fst hp)
  rw [if_neg h']

theorem registerAll_fresh (ts : List Tool) :
    ∀ tm0 : ToolManager,
      (∀ t ∈ ts, t.get_tool_definition.name ≠ "") →
      (∀ t ∈ ts, t.get_tool_definition.name ∉ tm0.tools.map Prod.fst) →
      (ts.map (fun t => t.get_tool_definition.name)).Nodup →
      ts.foldlM ToolManager.register_tool tm0 =
        .ok ⟨tm0.tools ++ ts.map (fun t => (t.get_tool_definition.name, t))⟩ := by
  induction ts with
  | nil =>
    intro tm0 _ _ _
    simp only [List.foldlM_nil, List.map_nil, List.append_nil]
    rfl
  | cons t rest ih =>
    intro tm0 hnames hfresh hnodup
    rw [List.map_cons, List.nodup_cons] at hnodup
    have hn : t.get_tool_definition.name ≠ "" := hnames t (by simp)
    have hf : t.get_tool_definition.name ∉ tm0.tools.map Prod.fst := hfresh t (by simp)
    have hstep : ToolManager.register_tool tm0 t =
        .ok ⟨tm0.tools ++ [(t.get_tool_definition.name, t)]⟩ := by
      unfold ToolManager.register_tool
      rw [if_neg hn, dict_set_fresh tm0.tools _ t hf]
    have hrest := ih ⟨tm0.tools ++ [(t.get_tool_definition.name, t)]⟩
      (fun u hu => hnames u (List.mem_cons_of_mem t hu))
      (fun u hu => by
        simp only [List.map_append, List.mem_append, not_or]
        refine ⟨hfresh u (List.mem_cons_of_mem t hu), ?_⟩
        simp only [List.map_cons, List.map_nil, List.mem_singleton]
        intro heq
        have hmem : t.get_tool_definition.name ∈
            rest.map (fun u => u.get_tool_definition.name) := by
          rw [← heq]
          exact List.mem_map_of_mem _ hu
        exact hnodup.1 hmem)
      hnodup.2
    calc (t :: rest).foldlM ToolManager.register_tool tm0
        = rest.foldlM ToolManager.register_tool
            ⟨tm0.tools ++ [(t.get_tool_definition.name, t)]⟩ := by
          rw [List.foldlM_cons, hstep]
          rfl
      _ = .ok ⟨tm0.tools ++ (t :: rest).map (fun t => (t.get_tool_definition.name, t))⟩ := by
          rw [hrest]
          simp

/-- C9: registering a list of (distinctly, non-emptily named) tools and then
reading `get_tool_definitions` yields each tool's own declared definition —
so each schema's name matches the name the tool declares — in registration
order. -/
theorem register_tools_schema_roundtrip (ts : List Tool)
    (hnames : ∀ t ∈ ts, t.get_tool_definition.name ≠ "")
    (hnodup : (ts.map (fun t => t.get_tool_definition.name)).Nodup)
    (tm : ToolManager) (h : registerAll ts = .ok tm) :
    tm.get_tool_definitions = ts.map Tool.get_tool_definition := by
  unfold registerAll at h
  rw [registerAll_fresh ts ⟨[]⟩ hnames (by simp) hnodup] at h
  cases h
  unfold ToolManager.get_tool_definitions
  simp [List.map_map, Function.comp]

theorem register_tools_schema_roundtrip_witness :
    ToolManager.get_tool_definitions
        ⟨[("alpha_tool", tool_alpha), ("beta_tool", tool_beta)]⟩ =
      [⟨"alpha_tool", "first tool"⟩, ⟨"beta_tool", "second tool"⟩] :=
  register_tools_schema_roundtrip [tool_alpha, tool_beta]
    (by intro t ht
        simp only [List.mem_cons, List.not_mem_nil, or_false] at ht
        rcases ht with h | h <;> subst h <;> decide)
    (by decide) _ rfl

theorem loop_calls_length_le (llm : Nat → Response) (tm : ToolManager)
    (sys : String) (ts : List ToolDefinition) :
    ∀ r msgs c, (execute_tool_loop llm tm sys ts r msgs c).calls.length ≤ r + 1 := by
  intro r
  induction r with
  | zero =>
    intro msgs c
    simp [execute_tool_loop]
  | succ r ih =>
    intro msgs c
    simp only [execute_tool_loop]
    split
    · simp
    · split
      · simp
      · simpa using Nat.succ_le_succ (ih _ _)

theorem loop_calls_length_pos (llm : Nat → Response) (tm : ToolManager)
    (sys : String) (ts : List ToolDefinition) :
    ∀ r msgs c, 1 ≤ (execute_tool_loop llm tm sys ts r msgs c).calls.length := by
  intro r
  induction r with
  | zero =>
    intro msgs c
    simp [execute_tool_loop]
  | succ r ih =>
    intro msgs c
    simp only [execute_tool_loop]
    split
    · simp
    · split
      · simp
      · simp

/-- C1: with tools and a tool manager supplied and `max_tool_rounds = N ≥ 1`,
one `generate_response` invocation makes at least 1 and at most `N + 1`
completion calls, whatever responses the LLM gives. -/
theorem generate_response_call_bounds (llm : Nat → Response) (tm : ToolManager)
    (query : String) (history : Option String) (ts : List ToolDefinition)
    (N : Nat) (hN : 1 ≤ N) (hts : ts ≠ []) :
    1 ≤ (generate_response llm query history (some ts) (some tm) (some N)).calls.length ∧
    (generate_response llm query history (some ts) (some tm) (some N)).calls.length ≤
      N + 1 := by
  simp only [generate_response, Option.getD_some]
  rw [if_neg hts]
  exact ⟨loop_calls_length_pos llm tm _ ts N _ 0, loop_calls_length_le llm tm _ ts N _ 0⟩

theorem generate_response_call_bounds_witness :
    1 ≤ (generate_response plain_llm "What is testing?" none (some ts_one)
          (some ⟨[]⟩) (some 1)).calls.length ∧
    (generate_response plain_llm "What is testing?" none (some ts_one)
          (some ⟨[]⟩) (some 1)).calls.length ≤ 1 + 1 :=
  generate_response_call_bounds plain_llm ⟨[]⟩ "What is testing?" none ts_one 1
    (by decide) (by decide)

/-- C10: with tools and a manager supplied but `max_tool_rounds = 0`, the
loop body never runs: exactly one completion call is made, with no tool
schemas offered, and the returned text is that call's extracted response
text. -/
theorem zero_rounds_single_plain_call (llm : Nat → Response) (query : String)
    (history : Option String) (ts : List ToolDefinition) (tm : ToolManager)
    (hts : ts ≠ []) :
    generate_response llm query history (some ts) (some tm) (some 0) =
      ⟨extract_text_response (llm 0),
        [⟨[⟨"user", .text query⟩], build_system_prompt history, false⟩],
        [⟨"user", .text query⟩]⟩ := by
  simp only [generate_response, Option.getD_some]
  rw [if_neg hts]
  rfl

theorem zero_rounds_single_plain_call_witness :
    generate_response plain_llm "What is testing?" (some "hi") (some ts_one)
        (some ⟨[]⟩) (some 0) =
      ⟨extract_text_response (plain_llm 0),
        [⟨[⟨"user", .text "What is testing?"⟩], build_system_prompt (some "hi"), false⟩],
        [⟨"user", .text "What is testing?"⟩]⟩ :=
  zero_rounds_single_plain_call plain_llm "What is testing?" (some "hi") ts_one ⟨[]⟩
    (by decide)

theorem loop_tool_error (llm : Nat → Response) (tm : ToolManager) (sys : String)
    (ts : List ToolDefinition) (e : String) :
    ∀ r kp c msgs, kp + 1 ≤ r →
      (∀ j, j < kp → (llm (c + j)).stop_reason = "tool_use" ∧
        (execute_all_tools tm (llm (c + j))).error = none) →
      (llm (c + kp)).stop_reason = "tool_use" →
      (execute_all_tools tm (llm (c + kp))).error = some e →
      (execute_tool_loop llm tm sys ts r msgs c).text = format_tool_error e ∧
      (execute_tool_loop llm tm sys ts r msgs c).calls.length = kp + 1 := by
  intro r
  induction r with
  | zero =>
    intro kp c msgs h
    omega
  | succ r ih =>
    intro kp c msgs hkr hprev hstop herr
    cases kp with
    | zero =>
      rw [Nat.add_zero] at hstop herr
      simp only [execute_tool_loop]
      rw [if_neg (by simp [hstop]), herr]
      simp
    | succ kp =>
      have h0 := hprev 0 (by omega)
      rw [Nat.add_zero] at h0
      have hrec := ih kp (c + 1)
        ((msgs ++ [⟨"assistant", MessageContent.blocks (llm c).content⟩]) ++
          [⟨"user", MessageContent.tool_results (execute_all_tools tm (llm c)).results⟩])
        (by omega)
        (fun j hj => by
          have h := hprev (j + 1) (by omega)
          rwa [show c + (j + 1) = c + 1 + j by omega] at h)
        (by rwa [show c + 1 + kp = c + (kp + 1) by omega])
        (by rwa [show c + 1 + kp = c + (kp + 1) by omega])
      simp only [execute_tool_loop]
      rw [if_neg (by simp [h0.1]), h0.2]
      simp only [List.length_cons]
      exact ⟨hrec.1, by rw [hrec.2]⟩

/-- C2: if rounds 1..k-1 each requested tools and executed them cleanly, and
in round k (1 ≤ k ≤ max_rounds) a requested tool raises, then
`generate_response` returns the formatted error string, exactly k completion
calls have occurred, and no further completion call is made. -/
theorem tool_failure_terminates_round_k (llm : Nat → Response) (tm : ToolManager)
    (query : String) (history : Option String) (ts : List ToolDefinition)
    (N k : Nat) (e : String) (hts : ts ≠ []) (hk1 : 1 ≤ k) (hkN : k ≤ N)
    (hprev : ∀ j, j + 1 < k → (llm j).stop_reason = "tool_use" ∧
      (execute_all_tools tm (llm j)).error = none)
    (hstop : (llm (k - 1)).stop_reason = "tool_use")
    (herr : (execute_all_tools tm (llm (k - 1))).error = some e) :
    (generate_response llm query history (some ts) (some tm) (some N)).text =
      format_tool_error e ∧
    (generate_response llm query history (some ts) (some tm) (some N)).calls.length =
      k := by
  simp only [generate_response, Option.getD_some]
  rw [if_neg hts]
  have h := loop_tool_error llm tm (build_system_prompt history) ts e N (k - 1) 0
    [⟨"user", .text query⟩] (by omega)
    (fun j hj => by simpa using hprev j (by omega))
    (by simpa using hstop) (by simpa using herr)
  have h2 := h.2
  exact ⟨h.1, by omega⟩

theorem tool_failure_terminates_round_k_witness :
    (generate_response boom_llm "q" none (some ts_one) (some boom_tm) (some 1)).text =
      format_tool_error "Tool boom_tool failed: boom" ∧
    (generate_response boom_llm "q" none (some ts_one) (some boom_tm)
        (some 1)).calls.length = 1 :=
  tool_failure_terminates_round_k boom_llm boom_tm "q" none ts_one 1 1
    "Tool boom_tool failed: boom" (by decide) (by decide) (by decide)
    (fun j hj => absurd hj (by omega)) rfl rfl

theorem roles_nonempty_of_getLast (msgs : List Message) (s : String)
    (h : (roles msgs).getLast? = some s) : msgs ≠ [] := by
  intro he
  subst he
  simp [roles] at h

theorem roles_chain_push (msgs : List Message) (m : Message) (r0 : String)
    (hc : List.Chain' (· ≠ ·) (roles msgs))
    (hl : (roles msgs).getLast? = some r0) (hne : r0 ≠ m.role) :
    List.Chain' (· ≠ ·) (roles (msgs ++ [m])) ∧
    (roles (msgs ++ [m])).getLast? = some m.role := by
  unfold roles at *
  rw [List.map_append, List.map_cons, List.map_nil]
  constructor
  · rw [List.chain'_append]
    refine ⟨hc, List.chain'_singleton _, ?_⟩
    intro x hx y hy
    rw [Option.mem_def] at hx hy
    rw [hl] at hx
    cases hx
    simp only [List.head?_cons, Option.some_inj] at hy
    rw [← hy]
    exact hne
  · exact List.getLast?_concat _

theorem roles_head_push (msgs : List Message) (m : Message) (h : msgs ≠ []) :
    (roles (msgs ++ [m])).head? = (roles msgs).head? := by
  cases msgs with
  | nil => exact absurd rfl h
  | cons a l => simp [roles]

theorem loop_roles (llm : Nat → Response) (tm : ToolManager) (sys : String)
    (ts : List ToolDefinition) :
    ∀ r msgs c,
      List.Chain' (· ≠ ·) (roles msgs) →
      (roles msgs).getLast? = some "user" →
      List.Chain' (· ≠ ·) (roles (execute_tool_loop llm tm sys ts r msgs c).messages) ∧
      (roles (execute_tool_loop llm tm sys ts r msgs c).messages).head? =
        (roles msgs).head? := by
  intro r
  induction r with
  | zero =>
    intro msgs c hc hl
    exact ⟨hc, rfl⟩
  | succ r ih =>
    intro msgs c hc hl
    have hne : msgs ≠ [] := roles_nonempty_of_getLast msgs "user" hl
    simp only [execute_tool_loop]
    split
    · exact ⟨hc, rfl⟩
    · have hpush1 := roles_chain_push msgs ⟨"assistant", .blocks (llm c).content⟩
        "user" hc hl (by simp)
      split
      · exact ⟨hpush1.1, roles_head_push msgs _ hne⟩
      · have hne1 : msgs ++ [(⟨"assistant", .blocks (llm c).content⟩ : Message)] ≠ [] := by
          simp
        have hpush2 := roles_chain_push
          (msgs ++ [⟨"assistant", .blocks (llm c).content⟩])
          ⟨"user", .tool_results (execute_all_tools tm (llm c)).results⟩
          "assistant" hpush1.1 hpush1.2 (by simp)
        have hrec := ih
          ((msgs ++ [⟨"assistant", .blocks (llm c).content⟩]) ++
            [⟨"user", .tool_results (execute_all_tools tm (llm c)).results⟩])
          (c + 1) hpush2.1 hpush2.2
        refine ⟨hrec.1, ?_⟩
        rw [hrec.2, roles_head_push _ _ hne1, roles_head_push _ _ hne]

/-- C8: within one `generate_response` invocation, the message sequence the
orchestrator builds starts with a user message and never holds two
consecutive same-role entries, for every LLM behaviour, tool set, manager and
round limit. -/
theorem orchestrator_messages_alternate (llm : Nat → Response) (query : String)
    (history : Option String) (tools : Option (List ToolDefinition))
    (tool_manager : Option ToolManager) (max_tool_rounds : Option Nat) :
    List.Chain' (· ≠ ·)
      (roles (generate_response llm query history tools tool_manager
        max_tool_rounds).messages) ∧
    (roles (generate_response llm query history tools tool_manager
      max_tool_rounds).messages).head? = some "user" := by
  match tools, tool_manager with
  | some ts, some tm =>
    simp only [generate_response]
    split
    · exact ⟨List.chain'_singleton _, rfl⟩
    · have h := loop_roles llm tm (build_system_prompt history) ts
        (max_tool_rounds.getD MAX_TOOL_ROUNDS) [⟨"user", .text query⟩] 0
        (List.chain'_singleton _) rfl
      exact ⟨h.1, h.2⟩
  | some _, none => exact ⟨List.chain'_singleton _, rfl⟩
  | none, some _ => exact ⟨List.chain'_singleton _, rfl⟩
  | none, none => exact ⟨List.chain'_singleton _, rfl⟩
